import Mathlib

/-!
Shallow embedding of the hypothesis-ros composable generator framework
(`hypothesis_ros/messages/geometry_msgs.py`, `hypothesis_ros/messages/rosgraph_msgs.py`
and the field-primitive layer they build on), together with theorems settling the
spec claims about it.

Python values drawn by the generators are modelled by the deep type `RosValue`
(floats are modelled as rationals: the spec delegates IEEE behaviour to the
underlying engine and the claims only constrain floats through inclusive bounds).
`namedtuple` records are tuples carrying their class name as a tag, so that
`isinstance(v, _Point)`-style checks are expressible.

Primitive hypothesis strategies (`integers`, `floats`, `just`, `lists`, ...) are
modelled by the deep type `Strat`; the external randomness/shrinking engine is an
oracle `Draw : Strat → RosValue`, constrained only by the `conforms` predicate
(the engine returns a value satisfying the strategy's declared bounds).  A
`@composite` generator is a function `Gen := Draw → Except PyErr RosValue`: it
draws from each field generator through the oracle and either returns the
assembled record or halts with a Python-level error.
-/

/-- A Python runtime value produced by a draw: integers, floats (as rationals),
strings, booleans, lists, and (named)tuples.  A tuple's optional tag is the
`namedtuple` class name; a plain tuple has tag `none`. -/
inductive RosValue : Type where
  | int (i : Int)
  | float (q : Rat)
  | str (s : String)
  | bool (b : Bool)
  | list (xs : List RosValue)
  | tuple (tag : Option String) (xs : List RosValue)

mutual

/-- Structural equality of values (Python `==` restricted to equally-shaped
values; namedtuple tags are compared as well). -/
def RosValue.beq : RosValue → RosValue → Bool
  | .int a, .int b => a == b
  | .float a, .float b => a == b
  | .str a, .str b => a == b
  | .bool a, .bool b => a == b
  | .list xs, .list ys => RosValue.beqList xs ys
  | .tuple t xs, .tuple u ys => t == u && RosValue.beqList xs ys
  | _, _ => false

/-- Pointwise equality of value lists. -/
def RosValue.beqList : List RosValue → List RosValue → Bool
  | [], [] => true
  | x :: xs, y :: ys => RosValue.beq x y && RosValue.beqList xs ys
  | _, _ => false

end

instance : BEq RosValue := ⟨RosValue.beq⟩

/-- Python exceptions that the generator code can raise during a draw. -/
inductive PyErr : Type where
  | assertionError (msg : String)
  | keyError (key : String)
  | indexError
  | valueError
deriving DecidableEq, Repr

mutual

/-- Rendering of a value, as Python `str` would produce for the message text. -/
def RosValue.pyStr : RosValue → String
  | .int i => toString i
  | .float q => toString q
  | .str s => s
  | .bool b => if b then "True" else "False"
  | .list xs => "[" ++ RosValue.pyStrList xs ++ "]"
  | .tuple _ xs => "(" ++ RosValue.pyStrList xs ++ ")"

/-- Comma-separated rendering of the elements of a list or tuple. -/
def RosValue.pyStrList : List RosValue → String
  | [] => ""
  | [x] => RosValue.pyStr x
  | x :: xs => RosValue.pyStr x ++ ", " ++ RosValue.pyStrList xs

end

/-- The opening replacement-field brace, code point `\x7b`. -/
def lbrace : Char := Char.ofNat 123

/-- The closing replacement-field brace, code point `\x7d`. -/
def rbrace : Char := Char.ofNat 125

/-- Decimal digit value of a character, when it is a digit. -/
def digitVal? (c : Char) : Option Nat :=
  if c.toNat ≥ 48 ∧ c.toNat ≤ 57 then some (c.toNat - 48) else none

/-- Helper for `fieldIndex?`: accumulate the decimal value of a digit list. -/
def fieldIndexGo : List Char → Nat → Option Nat
  | [], acc => some acc
  | c :: cs, acc =>
    match digitVal? c with
    | some dv => fieldIndexGo cs (acc * 10 + dv)
    | none => none

/-- A replacement-field name made of decimal digits denotes a positional index;
any other (in particular any identifier-like) field name is not an index. -/
def fieldIndex? : List Char → Option Nat
  | [] => none
  | c :: cs => fieldIndexGo (c :: cs) 0

mutual

/-- Scanning of the template text outside a replacement field: literal
characters are copied, an opening brace enters a replacement field. -/
def pyFormatGo (args : List String) : List Char → Except PyErr String
  | [] => .ok ""
  | c :: rest =>
    if c = lbrace then pyFormatField args [] rest
    else
      match pyFormatGo args rest with
      | .ok restStr => .ok (String.mk [c] ++ restStr)
      | .error e => .error e

/-- Scanning inside a replacement field: `acc` holds the field name read so far
(reversed); the field closes at the matching brace. -/
def pyFormatField (args : List String) (acc : List Char) : List Char → Except PyErr String
  | [] => .error .valueError
  | c :: rest =>
    if c = rbrace then
      match fieldIndex? acc.reverse with
      | some i =>
        match args.get? i with
        | some a =>
          match pyFormatGo args rest with
          | .ok restStr => .ok (a ++ restStr)
          | .error e => .error e
        | none => .error .indexError
      | none => .error (.keyError (String.mk acc.reverse))
    else pyFormatField args (c :: acc) rest

end

/-- Entry point of the `str.format` model: scan the whole template.  A
replacement field whose name is a decimal number takes the corresponding
positional argument; a field with an identifier-like name looks the name up
among keyword arguments, of which there are none anywhere in this repository,
so Python raises `KeyError(name)` at the first such field, in template order. -/
def pyFormat (template : String) (args : List String) : Except PyErr String :=
  pyFormatGo args template.toList

/-- Model of Python `assert cond, msg`: when `cond` holds nothing happens; when it
fails the message expression is evaluated — if that evaluation itself raises, the
raised error propagates, otherwise an `AssertionError` carrying the message is
raised. -/
def pyAssert (cond : Bool) (msg : Except PyErr String) : Except PyErr Unit :=
  if cond then .ok () else
    match msg with
    | .error e => .error e
    | .ok m => .error (.assertionError m)

/-- A primitive hypothesis strategy, as constructed by the field-primitive layer:
bounded integers, bounded floats (inclusive optional bounds), strings, booleans,
`just` a constant, homogeneous arrays with optional inclusive size bounds, and
the two-field `time` value. -/
inductive Strat : Type where
  | intS (lo hi : Int)
  | floatS (lo hi : Option Rat)
  | stringS
  | boolS
  | just (v : RosValue)
  | arrayOf (elem : Strat) (minSize maxSize : Option Nat)
  | timeS (secs nsecs : Strat)

/-- The contract the external engine keeps when drawing from a primitive
strategy: the returned value has the declared shape and lies within the declared
inclusive bounds; array elements each conform to the element strategy and the
length lies within the size bounds; a time value is the ordered pair of a
conforming seconds and nanoseconds value. -/
def conforms : RosValue → Strat → Bool
  | .int i, .intS lo hi => decide (lo ≤ i) && decide (i ≤ hi)
  | .float q, .floatS lo hi =>
      (match lo with | none => true | some l => decide (l ≤ q)) &&
      (match hi with | none => true | some h => decide (q ≤ h))
  | .str _, .stringS => true
  | .bool _, .boolS => true
  | v, .just w => v == w
  | .list xs, .arrayOf e lo hi =>
      (match lo with | none => true | some l => decide (l ≤ xs.length)) &&
      (match hi with | none => true | some h => decide (xs.length ≤ h)) &&
      xs.all (fun x => conforms x e)
  | .tuple (some t) vs, .timeS ss ns =>
      t == "Time" &&
      (match vs with
       | [sv, nv] => conforms sv ss && conforms nv ns
       | _ => false)
  | _, _ => false

/-- One concrete conforming engine: always return the least value a strategy
allows (used to witness that the conformance hypotheses are satisfiable). -/
def defaultDraw : Strat → RosValue
  | .intS lo _ => .int lo
  | .floatS lo _ => .float (match lo with | none => 0 | some l => l)
  | .stringS => .str ""
  | .boolS => .bool true
  | .just v => v
  | .arrayOf e lo _ =>
      .list (List.replicate (match lo with | none => 0 | some l => l) (defaultDraw e))
  | .timeS ss ns => .tuple (some "Time") [defaultDraw ss, defaultDraw ns]

/-- The engine's draw capability, opaque to the core: one value per primitive
strategy.  Determinism in the model stands for "the same choice sequence". -/
abbrev Draw : Type := Strat → RosValue

/-- A field generator as seen by a composite: given the engine's draw capability
it produces a value or halts with a Python error.  Primitive strategies are
lifted by `ofStrat`; `@composite` generators are such functions directly. -/
abbrev Gen : Type := Draw → Except PyErr RosValue

/-- Drawing from a primitive strategy just queries the engine and cannot fail. -/
def ofStrat (s : Strat) : Gen := fun d => .ok (d s)

/-- `isinstance(v, float)`: only a float is a float (a Python `int` is not). -/
def RosValue.isFloat : RosValue → Bool
  | .float _ => true
  | _ => false

/-- `isinstance(v, int)`: Python `bool` is a subclass of `int`. -/
def RosValue.isInt : RosValue → Bool
  | .int _ => true
  | .bool _ => true
  | _ => false

/-- `isinstance(v, str)`. -/
def RosValue.isStr : RosValue → Bool
  | .str _ => true
  | _ => false

/-- `isinstance(v, list)`. -/
def RosValue.isList : RosValue → Bool
  | .list _ => true
  | _ => false

/-- `isinstance(v, C)` for a `namedtuple` class `C`: the value is a tuple tagged
with that class name. -/
def RosValue.isinstanceOf (v : RosValue) (tag : String) : Bool :=
  match v with
  | .tuple (some t) _ => t == tag
  | _ => false

/-- Modelled from the spec: `uint8` from `hypothesis_ros/message_fields.py`
(not under `src/`) — a bounded 8-bit unsigned integer strategy with inclusive
`min_value`/`max_value` defaulting to the full representable range `0..255`. -/
def uint8 (min_value : Int := 0) (max_value : Int := 255) : Strat :=
  .intS min_value max_value

/-- Modelled from the spec: `uint32` from `hypothesis_ros/message_fields.py`
(not under `src/`) — a bounded 32-bit unsigned integer strategy with inclusive
`min_value`/`max_value` defaulting to the full representable range. -/
def uint32 (min_value : Int := 0) (max_value : Int := 4294967295) : Strat :=
  .intS min_value max_value

/-- Modelled from the spec: `float64` from `hypothesis_ros/message_fields.py`
(not under `src/`) — a bounded double-precision float strategy with inclusive
optional `min_value`/`max_value` defaulting to unconstrained. -/
def float64 (min_value : Option Rat := none) (max_value : Option Rat := none) : Strat :=
  .floatS min_value max_value

/-- Modelled from the spec: `string` from `hypothesis_ros/message_fields.py`
(not under `src/`) — produces a finite-length character sequence. -/
def string : Strat := .stringS

/-- Modelled from the spec: `time` from `hypothesis_ros/message_fields.py`
(not under `src/`) — a fixed two-field composite (`secs`, `nsecs`), each itself a
bounded unsigned integer strategy, produced as an ordered pair. -/
def time (secs : Strat := uint32) (nsecs : Strat := uint32) : Strat :=
  .timeS secs nsecs

/-- Modelled from the spec: `array` from `hypothesis_ros/message_fields.py`
(not under `src/`) — a sequence of elements independently drawn from `elements`,
with inclusive `min_size`/`max_size` bounds on the length (unconstrained when
unspecified). -/
def array (elements : Strat) (min_size : Option Nat := none)
    (max_size : Option Nat := none) : Strat :=
  .arrayOf elements min_size max_size

/-- The module-level `float64()` default strategy instance used as default field
generator throughout `geometry_msgs.py`. -/
def float64Default : Strat := float64

/-- The module-level `time()` default strategy instance. -/
def timeDefault : Strat := time

/-- Modelled from the spec: `header` from `hypothesis_ros/messages/std_msgs.py`
(not under `src/`) — a composite generator with fields `seq`, `stamp`,
`frame_id` in that order, drawing one value per field and assembling the
`_Header` record.  The repository's own tests customize `frame_id` with a
`float64` strategy and expect the draw to succeed, so no per-field runtime type
assertion is modelled for `header`. -/
def header (seq : Gen := ofStrat uint32) (stamp : Gen := ofStrat timeDefault)
    (frame_id : Gen := ofStrat string) : Gen := fun d => do
  let seq_value ← seq d
  let stamp_value ← stamp d
  let frame_id_value ← frame_id d
  return .tuple (some "Header") [seq_value, stamp_value, frame_id_value]

/-- The module-level `header()` default generator instance used as default field
generator by `transform_stamped` and `log`. -/
def headerDefault : Gen := header

/-- `point` from `geometry_msgs.py`: draws `x`, `y`, `z`, asserts each drawn
value is a float, and assembles the `_Point` record.  The assert message calls
`format` with positional arguments on a template with named fields, transcribed
faithfully (the second format argument, the strategy object, is rendered as a
fixed placeholder since strategies carry no printable form in the model). -/
def point (x : Gen := ofStrat float64Default) (y : Gen := ofStrat float64Default)
    (z : Gen := ofStrat float64Default) : Gen := fun d => do
  let x_value ← x d
  let y_value ← y d
  let z_value ← z d
  pyAssert x_value.isFloat (pyFormat "drew invalid x={x_value} from {x} for float64 field" [x_value.pyStr, "<strategy>"])
  pyAssert y_value.isFloat (pyFormat "drew invalid y={y_value} from {y} for float64 field" [y_value.pyStr, "<strategy>"])
  pyAssert z_value.isFloat (pyFormat "drew invalid y={z_value} from {z} for float64 field" [z_value.pyStr, "<strategy>"])
  return .tuple (some "Point") [x_value, y_value, z_value]

/-- `quaternion` from `geometry_msgs.py`: draws `x`, `y`, `z`, `w`, asserts each
is a float, and assembles the `_Quaternion` record. -/
def quaternion (x : Gen := ofStrat float64Default) (y : Gen := ofStrat float64Default)
    (z : Gen := ofStrat float64Default) (w : Gen := ofStrat float64Default) : Gen := fun d => do
  let x_value ← x d
  let y_value ← y d
  let z_value ← z d
  let w_value ← w d
  pyAssert x_value.isFloat (pyFormat "drew invalid x={x_value} from {x} for float64 field" [x_value.pyStr, "<strategy>"])
  pyAssert y_value.isFloat (pyFormat "drew invalid y={y_value} from {y} for float64 field" [y_value.pyStr, "<strategy>"])
  pyAssert z_value.isFloat (pyFormat "drew invalid y={z_value} from {z} for float64 field" [z_value.pyStr, "<strategy>"])
  pyAssert w_value.isFloat (pyFormat "drew invalid y={w_value} from {w} for float64 field" [w_value.pyStr, "<strategy>"])
  return .tuple (some "Quaternion") [x_value, y_value, z_value, w_value]

/-- `pose` from `geometry_msgs.py`: draws `position` and `orientation`, asserts
they are `_Point` resp. `_Quaternion` instances, and assembles the `_Pose`
record. -/
def pose (position : Gen := point) (orientation : Gen := quaternion) : Gen := fun d => do
  let position_value ← position d
  let orientation_value ← orientation d
  pyAssert (position_value.isinstanceOf "Point") (pyFormat "drew invalid position={position_value} from {position} for _Point field" [position_value.pyStr, "<strategy>"])
  pyAssert (orientation_value.isinstanceOf "Quaternion") (pyFormat "drew invalid orientation={orientation_value} from {orientation} for _Quaternion field" [orientation_value.pyStr, "<strategy>"])
  return .tuple (some "Pose") [position_value, orientation_value]

/-- The module-level `pose()` default generator instance. -/
def poseDefault : Gen := pose

/-- The module-level `array(elements=float64(), min_size=36, max_size=36)`
default covariance strategy instance of `pose_with_covariance`. -/
def poseWithCovarianceCovarianceDefault : Strat :=
  array float64Default (some 36) (some 36)

/-- `pose_with_covariance` from `geometry_msgs.py`: draws `pose` and
`covariance` and assembles the `_PoseWithCovariance` record.  The source
performs no validation of either drawn value (it carries a
`TODO: add validation for covariance_value` comment). -/
def pose_with_covariance (pose : Gen := poseDefault)
    (covariance : Gen := ofStrat poseWithCovarianceCovarianceDefault) : Gen := fun d => do
  let pose_value ← pose d
  let covariance_value ← covariance d
  return .tuple (some "PoseWithCovariance") [pose_value, covariance_value]

/-- The module-level `pose_with_covariance()` default generator instance. -/
def poseWithCovarianceDefault : Gen := pose_with_covariance

/-- `pose_with_covariance_stamped` from `geometry_msgs.py`: draws `header` and
`pose_with_covariance` and assembles the `_PoseWithCovarianceStamped` record,
with no validation of either drawn value. -/
def pose_with_covariance_stamped (header : Gen := headerDefault)
    (pose_with_covariance : Gen := poseWithCovarianceDefault) : Gen := fun d => do
  let header_value ← header d
  let pose_with_covariance_value ← pose_with_covariance d
  return .tuple (some "PoseWithCovarianceStamped") [header_value, pose_with_covariance_value]

/-- `vector3` from `geometry_msgs.py`: draws `x`, `y`, `z`, asserts each is a
float, and assembles the `_Vector3` record. -/
def vector3 (x : Gen := ofStrat float64Default) (y : Gen := ofStrat float64Default)
    (z : Gen := ofStrat float64Default) : Gen := fun d => do
  let x_value ← x d
  let y_value ← y d
  let z_value ← z d
  pyAssert x_value.isFloat (pyFormat "drew invalid x={x_value} from {x} for float64 field" [x_value.pyStr, "<strategy>"])
  pyAssert y_value.isFloat (pyFormat "drew invalid y={y_value} from {y} for float64 field" [y_value.pyStr, "<strategy>"])
  pyAssert z_value.isFloat (pyFormat "drew invalid y={z_value} from {z} for float64 field" [z_value.pyStr, "<strategy>"])
  return .tuple (some "Vector3") [x_value, y_value, z_value]

/-- `transform` from `geometry_msgs.py`: draws `translation` and `rotation`,
asserts they are `_Vector3` resp. `_Quaternion` instances, and assembles the
`_Transform` record. -/
def transform (translation : Gen := vector3) (rotation : Gen := quaternion) : Gen := fun d => do
  let translation_value ← translation d
  let rotation_value ← rotation d
  pyAssert (translation_value.isinstanceOf "Vector3") (pyFormat "drew invalid translation={translation_value} from {translation} for _Vector3 field" [translation_value.pyStr, "<strategy>"])
  pyAssert (rotation_value.isinstanceOf "Quaternion") (pyFormat "drew invalid rotation={rotation_value} from {rotation} for _Quaternion field" [rotation_value.pyStr, "<strategy>"])
  return .tuple (some "Transform") [translation_value, rotation_value]

/-- The module-level `transform()` default generator instance. -/
def transformDefault : Gen := transform

/-- `transform_stamped` from `geometry_msgs.py`: draws `header`,
`child_frame_id` and `transform` in that order, asserts they are a `_Header`
instance, a `str` and a `_Transform` instance, and assembles the
`_TransformStamped` record. -/
def transform_stamped (header : Gen := headerDefault) (child_frame_id : Gen := ofStrat string)
    (transform : Gen := transformDefault) : Gen := fun d => do
  let header_value ← header d
  let child_frame_id_value ← child_frame_id d
  let transform_value ← transform d
  pyAssert (header_value.isinstanceOf "Header") (pyFormat "drew invalid header={header_value} from {header} for _Header field" [header_value.pyStr, "<strategy>"])
  pyAssert child_frame_id_value.isStr (pyFormat "drew invalid child_frame_id={child_frame_id_value} from {child_frame_id} for string field" [child_frame_id_value.pyStr, "<strategy>"])
  pyAssert (transform_value.isinstanceOf "Transform") (pyFormat "drew invalid transform={transform_value} from {transform} for _Transform field" [transform_value.pyStr, "<strategy>"])
  return .tuple (some "TransformStamped") [header_value, child_frame_id_value, transform_value]

/-- `log` from `rosgraph_msgs.py`: draws `header`, `level`, `name`, `msg`,
`file`, `function`, `line`, `topics` in that order, asserts the runtime type of
every drawn value except the header (`int`, `str`, `str`, `str`, `str`, `int`,
`list`), and assembles the `_Log` record. -/
def log (header : Gen := headerDefault) (level : Gen := ofStrat uint8)
    (name : Gen := ofStrat string) (msg : Gen := ofStrat string)
    (file : Gen := ofStrat string) (function : Gen := ofStrat string)
    (line : Gen := ofStrat uint32) (topics : Gen := ofStrat (array string)) : Gen := fun d => do
  let header_value ← header d
  let level_value ← level d
  let name_value ← name d
  let msg_value ← msg d
  let file_value ← file d
  let function_value ← function d
  let line_value ← line d
  let topics_value ← topics d
  pyAssert level_value.isInt (pyFormat "drew invalid level={level_value} from {level} for int field" [level_value.pyStr, "<strategy>"])
  pyAssert name_value.isStr (pyFormat "drew invalid name={name_value} from {name} for string field" [name_value.pyStr, "<strategy>"])
  pyAssert msg_value.isStr (pyFormat "drew invalid msg={msg_value} from {msg} for string field" [msg_value.pyStr, "<strategy>"])
  pyAssert file_value.isStr (pyFormat "drew invalid file={file_value} from {file} for string field" [file_value.pyStr, "<strategy>"])
  pyAssert function_value.isStr (pyFormat "drew invalid function={function_value} from {function} for string field" [function_value.pyStr, "<strategy>"])
  pyAssert line_value.isInt (pyFormat "drew invalid line={line_value} from {line} for int field" [line_value.pyStr, "<strategy>"])
  pyAssert topics_value.isList (pyFormat "drew invalid topics={topics_value} from {msg} for list field" [topics_value.pyStr, "<strategy>"])
  return .tuple (some "Log") [header_value, level_value, name_value, msg_value,
    file_value, function_value, line_value, topics_value]

/-- The number of fields of a produced record (or elements of a list). -/
def RosValue.arity : RosValue → Nat
  | .tuple _ xs => xs.length
  | .list xs => xs.length
  | _ => 0

theorem exceptBind_ok {e a b : Type} (x : Except e a) (f : a → Except e b) (v : b) :
    (x >>= f) = .ok v ↔ ∃ w, x = .ok w ∧ f w = .ok v := by
  cases x <;> simp [Bind.bind, Except.bind]

theorem pyAssert_ok (c : Bool) (m : Except PyErr String) (u : Unit) :
    pyAssert c m = .ok u ↔ c = true := by
  cases c <;> cases m <;> simp [pyAssert]

theorem pure_ok {e a : Type} (v w : a) :
    (pure v : Except e a) = .ok w ↔ v = w := by
  simp [pure, Except.pure]

theorem ofStrat_ok (s : Strat) (d : Draw) (v : RosValue) :
    ofStrat s d = .ok v ↔ d s = v := by
  simp [ofStrat, eq_comm]

theorem point_ok_iff (x y z : Gen) (d : Draw) (v : RosValue) :
    point x y z d = .ok v ↔
      ∃ xv, x d = .ok xv ∧ ∃ yv, y d = .ok yv ∧ ∃ zv, z d = .ok zv ∧
        xv.isFloat = true ∧ yv.isFloat = true ∧ zv.isFloat = true ∧
        v = .tuple (some "Point") [xv, yv, zv] := by
  simp only [point, exceptBind_ok, pyAssert_ok, pure_ok, exists_const]
  tauto

theorem quaternion_ok_iff (x y z w : Gen) (d : Draw) (v : RosValue) :
    quaternion x y z w d = .ok v ↔
      ∃ xv, x d = .ok xv ∧ ∃ yv, y d = .ok yv ∧ ∃ zv, z d = .ok zv ∧
      ∃ wv, w d = .ok wv ∧
        xv.isFloat = true ∧ yv.isFloat = true ∧ zv.isFloat = true ∧ wv.isFloat = true ∧
        v = .tuple (some "Quaternion") [xv, yv, zv, wv] := by
  simp only [quaternion, exceptBind_ok, pyAssert_ok, pure_ok, exists_const]
  tauto

theorem vector3_ok_iff (x y z : Gen) (d : Draw) (v : RosValue) :
    vector3 x y z d = .ok v ↔
      ∃ xv, x d = .ok xv ∧ ∃ yv, y d = .ok yv ∧ ∃ zv, z d = .ok zv ∧
        xv.isFloat = true ∧ yv.isFloat = true ∧ zv.isFloat = true ∧
        v = .tuple (some "Vector3") [xv, yv, zv] := by
  simp only [vector3, exceptBind_ok, pyAssert_ok, pure_ok, exists_const]
  tauto

theorem pose_ok_iff (position orientation : Gen) (d : Draw) (v : RosValue) :
    pose position orientation d = .ok v ↔
      ∃ pv, position d = .ok pv ∧ ∃ ov, orientation d = .ok ov ∧
        pv.isinstanceOf "Point" = true ∧ ov.isinstanceOf "Quaternion" = true ∧
        v = .tuple (some "Pose") [pv, ov] := by
  simp only [pose, exceptBind_ok, pyAssert_ok, pure_ok, exists_const]
  tauto

theorem pose_with_covariance_ok_iff (pose covariance : Gen) (d : Draw) (v : RosValue) :
    pose_with_covariance pose covariance d = .ok v ↔
      ∃ pv, pose d = .ok pv ∧ ∃ cv, covariance d = .ok cv ∧
        v = .tuple (some "PoseWithCovariance") [pv, cv] := by
  simp only [pose_with_covariance, exceptBind_ok, pure_ok]
  tauto

theorem pose_with_covariance_stamped_ok_iff (header pwc : Gen) (d : Draw) (v : RosValue) :
    pose_with_covariance_stamped header pwc d = .ok v ↔
      ∃ hv, header d = .ok hv ∧ ∃ pv, pwc d = .ok pv ∧
        v = .tuple (some "PoseWithCovarianceStamped") [hv, pv] := by
  simp only [pose_with_covariance_stamped, exceptBind_ok, pure_ok]
  tauto

theorem transform_ok_iff (translation rotation : Gen) (d : Draw) (v : RosValue) :
    transform translation rotation d = .ok v ↔
      ∃ tv, translation d = .ok tv ∧ ∃ rv, rotation d = .ok rv ∧
        tv.isinstanceOf "Vector3" = true ∧ rv.isinstanceOf "Quaternion" = true ∧
        v = .tuple (some "Transform") [tv, rv] := by
  simp only [transform, exceptBind_ok, pyAssert_ok, pure_ok, exists_const]
  tauto

theorem transform_stamped_ok_iff (header child_frame_id tf : Gen) (d : Draw) (v : RosValue) :
    transform_stamped header child_frame_id tf d = .ok v ↔
      ∃ hv, header d = .ok hv ∧ ∃ cv, child_frame_id d = .ok cv ∧ ∃ tv, tf d = .ok tv ∧
        hv.isinstanceOf "Header" = true ∧ cv.isStr = true ∧ tv.isinstanceOf "Transform" = true ∧
        v = .tuple (some "TransformStamped") [hv, cv, tv] := by
  simp only [transform_stamped, exceptBind_ok, pyAssert_ok, pure_ok, exists_const]
  tauto

theorem header_ok_iff (seq stamp frame_id : Gen) (d : Draw) (v : RosValue) :
    header seq stamp frame_id d = .ok v ↔
      ∃ sv, seq d = .ok sv ∧ ∃ tv, stamp d = .ok tv ∧ ∃ fv, frame_id d = .ok fv ∧
        v = .tuple (some "Header") [sv, tv, fv] := by
  simp only [header, exceptBind_ok, pure_ok]
  tauto

theorem log_ok_iff (header level name msg file function line topics : Gen)
    (d : Draw) (v : RosValue) :
    log header level name msg file function line topics d = .ok v ↔
      ∃ hv, header d = .ok hv ∧ ∃ lv, level d = .ok lv ∧ ∃ nv, name d = .ok nv ∧
      ∃ mv, msg d = .ok mv ∧ ∃ fv, file d = .ok fv ∧ ∃ uv, function d = .ok uv ∧
      ∃ iv, line d = .ok iv ∧ ∃ tv, topics d = .ok tv ∧
        lv.isInt = true ∧ nv.isStr = true ∧ mv.isStr = true ∧ fv.isStr = true ∧
        uv.isStr = true ∧ iv.isInt = true ∧ tv.isList = true ∧
        v = .tuple (some "Log") [hv, lv, nv, mv, fv, uv, iv, tv] := by
  simp only [log, exceptBind_ok, pyAssert_ok, pure_ok, exists_const]
  tauto

theorem conforms_intS (v : RosValue) (lo hi : Int) :
    conforms v (.intS lo hi) = true ↔ ∃ i, v = .int i ∧ lo ≤ i ∧ i ≤ hi := by
  cases v <;> simp [conforms]

theorem conforms_floatS_closed (v : RosValue) (lo hi : Rat) :
    conforms v (.floatS (some lo) (some hi)) = true ↔
      ∃ q, v = .float q ∧ lo ≤ q ∧ q ≤ hi := by
  cases v <;> simp [conforms]

theorem conforms_just_str (v : RosValue) (s : String) :
    conforms v (.just (.str s)) = true ↔ v = .str s := by
  cases v <;> simp [conforms, BEq.beq, RosValue.beq]

theorem conforms_arrayOf_exact (v : RosValue) (e : Strat) (n : Nat) :
    conforms v (.arrayOf e (some n) (some n)) = true ↔
      ∃ xs, v = .list xs ∧ xs.length = n ∧ (∀ x ∈ xs, conforms x e = true) := by
  cases v <;> simp [conforms]
  intro _
  omega

theorem conforms_timeS (v : RosValue) (ss ns : Strat) :
    conforms v (.timeS ss ns) = true ↔
      ∃ sv nv, v = .tuple (some "Time") [sv, nv] ∧
        conforms sv ss = true ∧ conforms nv ns = true := by
  cases v with
  | tuple tag xs =>
    cases tag with
    | none => simp [conforms]
    | some t =>
      match xs with
      | [] => simp [conforms]
      | [a] => simp [conforms]
      | [a, b] =>
        simp only [conforms, Bool.and_eq_true, beq_iff_eq]
        constructor
        · rintro ⟨rfl, h1, h2⟩
          exact ⟨a, b, rfl, h1, h2⟩
        · rintro ⟨sv, nv, heq, h1, h2⟩
          injection heq with htag hxs
          injection htag with ht
          injection hxs with ha hrest
          injection hrest with hb _
          subst ht
          subst ha
          subst hb
          exact ⟨rfl, h1, h2⟩
      | a :: b :: c :: rest => simp [conforms]
  | int i => simp [conforms]
  | float q => simp [conforms]
  | str s => simp [conforms]
  | bool b => simp [conforms]
  | list xs => simp [conforms]

theorem all_conforms_const_int (xs : List RosValue) (k : Int)
    (h : ∀ x ∈ xs, conforms x (.intS k k) = true) :
    xs = List.replicate xs.length (.int k) := by
  induction xs with
  | nil => rfl
  | cons x xs ih =>
    have hx := h x (by simp)
    rw [conforms_intS] at hx
    obtain ⟨i, rfl, h1, h2⟩ := hx
    have : i = k := by omega
    subst this
    simp only [List.length_cons, List.replicate_succ, List.cons.injEq]
    exact ⟨trivial, ih (fun y hy => h y (by simp [hy]))⟩

/-- Claim C1: for every composite message generator (here the cited
`transform_stamped` and `log`), every successful draw pulls one value from each
field generator in the schema's declared field order and returns a record whose
field order matches that declaration and whose arity equals the declared field
count (3 for `transform_stamped`, 8 for `log`). -/
theorem C1_field_order_and_arity :
    (∀ (header child_frame_id tf : Gen) (d : Draw) (v : RosValue),
       transform_stamped header child_frame_id tf d = .ok v →
       ∃ hv cv tv, header d = .ok hv ∧ child_frame_id d = .ok cv ∧ tf d = .ok tv ∧
         v = .tuple (some "TransformStamped") [hv, cv, tv] ∧ v.arity = 3) ∧
    (∀ (header level name msg file function line topics : Gen) (d : Draw) (v : RosValue),
       log header level name msg file function line topics d = .ok v →
       ∃ hv lv nv mv fv uv iv tv, header d = .ok hv ∧ level d = .ok lv ∧
         name d = .ok nv ∧ msg d = .ok mv ∧ file d = .ok fv ∧ function d = .ok uv ∧
         line d = .ok iv ∧ topics d = .ok tv ∧
         v = .tuple (some "Log") [hv, lv, nv, mv, fv, uv, iv, tv] ∧ v.arity = 8) := by
  constructor
  · intro header child_frame_id tf d v h
    rw [transform_stamped_ok_iff] at h
    obtain ⟨hv, h1, cv, h2, tv, h3, _, _, _, rfl⟩ := h
    exact ⟨hv, cv, tv, h1, h2, h3, rfl, rfl⟩
  · intro header level name msg file function line topics d v h
    rw [log_ok_iff] at h
    obtain ⟨hv, h1, lv, h2, nv, h3, mv, h4, fv, h5, uv, h6, iv, h7, tv, h8,
      _, _, _, _, _, _, _, rfl⟩ := h
    exact ⟨hv, lv, nv, mv, fv, uv, iv, tv, h1, h2, h3, h4, h5, h6, h7, h8, rfl, rfl⟩

/-- Witness for C1: the fully-default `transform_stamped` generator drawn with
the canonical conforming engine returns the `_TransformStamped` record whose
fields are, in declared order, the drawn header, child frame id and transform,
with arity 3. -/
theorem C1_field_order_and_arity_witness :
    ∃ hv cv tv, headerDefault defaultDraw = .ok hv ∧
      ofStrat string defaultDraw = .ok cv ∧ transformDefault defaultDraw = .ok tv ∧
      (RosValue.tuple (some "TransformStamped")
        [.tuple (some "Header") [.int 0, .tuple (some "Time") [.int 0, .int 0], .str ""],
         .str "",
         .tuple (some "Transform")
           [.tuple (some "Vector3") [.float 0, .float 0, .float 0],
            .tuple (some "Quaternion") [.float 0, .float 0, .float 0, .float 0]]])
        = .tuple (some "TransformStamped") [hv, cv, tv] ∧
      (RosValue.tuple (some "TransformStamped")
        [.tuple (some "Header") [.int 0, .tuple (some "Time") [.int 0, .int 0], .str ""],
         .str "",
         .tuple (some "Transform")
           [.tuple (some "Vector3") [.float 0, .float 0, .float 0],
            .tuple (some "Quaternion") [.float 0, .float 0, .float 0, .float 0]]]).arity = 3 :=
  C1_field_order_and_arity.1 headerDefault (ofStrat string) transformDefault defaultDraw _ rfl

/-- Claim C2, counterexample: `pose_with_covariance` assembles its record
without any runtime type check — a caller-supplied `just(7)` override for the
`covariance` field (declared as a float64 array, i.e. a list at runtime) draws
the integer `7`, which is not a list, and the record is returned anyway. -/
theorem C2_counterexample_unchecked_covariance :
    pose_with_covariance poseDefault (ofStrat (.just (.int 7))) defaultDraw
      = .ok (.tuple (some "PoseWithCovariance")
          [.tuple (some "Pose")
            [.tuple (some "Point") [.float 0, .float 0, .float 0],
             .tuple (some "Quaternion") [.float 0, .float 0, .float 0, .float 0]],
           .int 7])
    ∧ (RosValue.int 7).isList = false :=
  ⟨rfl, rfl⟩

/-- Claim C2, amended: every field of `point`, `quaternion`, `vector3`, `pose`,
`transform` and `transform_stamped`, and every field of `log` except `header`,
has its drawn value's runtime type checked against the field's declared semantic
type before the record is assembled; the fields of `pose_with_covariance` and
`pose_with_covariance_stamped` (and `log`'s `header` field) are exempt. -/
theorem C2_amended_type_checks :
    (∀ (x y z : Gen) (d : Draw) (v : RosValue), point x y z d = .ok v →
       ∃ xv yv zv, x d = .ok xv ∧ y d = .ok yv ∧ z d = .ok zv ∧
         xv.isFloat = true ∧ yv.isFloat = true ∧ zv.isFloat = true) ∧
    (∀ (x y z w : Gen) (d : Draw) (v : RosValue), quaternion x y z w d = .ok v →
       ∃ xv yv zv wv, x d = .ok xv ∧ y d = .ok yv ∧ z d = .ok zv ∧ w d = .ok wv ∧
         xv.isFloat = true ∧ yv.isFloat = true ∧ zv.isFloat = true ∧ wv.isFloat = true) ∧
    (∀ (x y z : Gen) (d : Draw) (v : RosValue), vector3 x y z d = .ok v →
       ∃ xv yv zv, x d = .ok xv ∧ y d = .ok yv ∧ z d = .ok zv ∧
         xv.isFloat = true ∧ yv.isFloat = true ∧ zv.isFloat = true) ∧
    (∀ (position orientation : Gen) (d : Draw) (v : RosValue),
       pose position orientation d = .ok v →
       ∃ pv ov, position d = .ok pv ∧ orientation d = .ok ov ∧
         pv.isinstanceOf "Point" = true ∧ ov.isinstanceOf "Quaternion" = true) ∧
    (∀ (translation rotation : Gen) (d : Draw) (v : RosValue),
       transform translation rotation d = .ok v →
       ∃ tv rv, translation d = .ok tv ∧ rotation d = .ok rv ∧
         tv.isinstanceOf "Vector3" = true ∧ rv.isinstanceOf "Quaternion" = true) ∧
    (∀ (header child_frame_id tf : Gen) (d : Draw) (v : RosValue),
       transform_stamped header child_frame_id tf d = .ok v →
       ∃ hv cv tv, header d = .ok hv ∧ child_frame_id d = .ok cv ∧ tf d = .ok tv ∧
         hv.isinstanceOf "Header" = true ∧ cv.isStr = true ∧
         tv.isinstanceOf "Transform" = true) ∧
    (∀ (header level name msg file function line topics : Gen) (d : Draw) (v : RosValue),
       log header level name msg file function line topics d = .ok v →
       ∃ lv nv mv fv uv iv tv, level d = .ok lv ∧ name d = .ok nv ∧ msg d = .ok mv ∧
         file d = .ok fv ∧ function d = .ok uv ∧ line d = .ok iv ∧ topics d = .ok tv ∧
         lv.isInt = true ∧ nv.isStr = true ∧ mv.isStr = true ∧ fv.isStr = true ∧
         uv.isStr = true ∧ iv.isInt = true ∧ tv.isList = true) := by
  refine ⟨?_, ?_, ?_, ?_, ?_, ?_, ?_⟩
  · intro x y z d v h
    rw [point_ok_iff] at h
    obtain ⟨xv, h1, yv, h2, zv, h3, c1, c2, c3, _⟩ := h
    exact ⟨xv, yv, zv, h1, h2, h3, c1, c2, c3⟩
  · intro x y z w d v h
    rw [quaternion_ok_iff] at h
    obtain ⟨xv, h1, yv, h2, zv, h3, wv, h4, c1, c2, c3, c4, _⟩ := h
    exact ⟨xv, yv, zv, wv, h1, h2, h3, h4, c1, c2, c3, c4⟩
  · intro x y z d v h
    rw [vector3_ok_iff] at h
    obtain ⟨xv, h1, yv, h2, zv, h3, c1, c2, c3, _⟩ := h
    exact ⟨xv, yv, zv, h1, h2, h3, c1, c2, c3⟩
  · intro position orientation d v h
    rw [pose_ok_iff] at h
    obtain ⟨pv, h1, ov, h2, c1, c2, _⟩ := h
    exact ⟨pv, ov, h1, h2, c1, c2⟩
  · intro translation rotation d v h
    rw [transform_ok_iff] at h
    obtain ⟨tv, h1, rv, h2, c1, c2, _⟩ := h
    exact ⟨tv, rv, h1, h2, c1, c2⟩
  · intro header child_frame_id tf d v h
    rw [transform_stamped_ok_iff] at h
    obtain ⟨hv, h1, cv, h2, tv, h3, c1, c2, c3, _⟩ := h
    exact ⟨hv, cv, tv, h1, h2, h3, c1, c2, c3⟩
  · intro header level name msg file function line topics d v h
    rw [log_ok_iff] at h
    obtain ⟨hv, h1, lv, h2, nv, h3, mv, h4, fv, h5, uv, h6, iv, h7, tv, h8,
      c1, c2, c3, c4, c5, c6, c7, _⟩ := h
    exact ⟨lv, nv, mv, fv, uv, iv, tv, h2, h3, h4, h5, h6, h7, h8,
      c1, c2, c3, c4, c5, c6, c7⟩

/-- Witness for the amended C2: the default `point` generator drawn with the
canonical conforming engine passes the three per-field float checks. -/
theorem C2_amended_type_checks_witness :
    ∃ xv yv zv, ofStrat float64Default defaultDraw = .ok xv ∧
      ofStrat float64Default defaultDraw = .ok yv ∧
      ofStrat float64Default defaultDraw = .ok zv ∧
      xv.isFloat = true ∧ yv.isFloat = true ∧ zv.isFloat = true :=
  C2_amended_type_checks.1 (ofStrat float64Default) (ofStrat float64Default)
    (ofStrat float64Default) defaultDraw
    (.tuple (some "Point") [.float 0, .float 0, .float 0]) rfl

/-- Claim C3: on a type-check failure the draw halts, but the caller receives
`KeyError("x_value")` — raised while the assert message calls `format` with
positional arguments on a template whose replacement fields are named — not a
contract-violation diagnostic identifying the field, the drawn value and the
generator: overriding `x` of `point` with `just(1)` draws the integer `1`,
fails `isinstance(x_value, float)`, and the draw ends with that `KeyError`. -/
theorem C3_keyerror_instead_of_diagnostic :
    point (ofStrat (.just (.int 1))) (ofStrat float64Default) (ofStrat float64Default)
        defaultDraw
      = .error (.keyError "x_value") :=
  rfl

/-- Claim C4: the `header` generator with `seq` fixed to the constant `0`,
`stamp` fixed to the constant pair `(1, 2)` and `frame_id` fixed to the literal
string `"some_tf_frame_name"` yields the record
`(0, (1, 2), "some_tf_frame_name")` on every conforming draw. -/
theorem C4_header_constant_draw (d : Draw)
    (h1 : conforms (d (uint32 0 0)) (uint32 0 0) = true)
    (h2 : conforms (d (time (uint32 1 1) (uint32 2 2))) (time (uint32 1 1) (uint32 2 2)) = true)
    (h3 : conforms (d (.just (.str "some_tf_frame_name")))
            (.just (.str "some_tf_frame_name")) = true) :
    header (ofStrat (uint32 0 0)) (ofStrat (time (uint32 1 1) (uint32 2 2)))
        (ofStrat (.just (.str "some_tf_frame_name"))) d
      = .ok (.tuple (some "Header")
          [.int 0, .tuple (some "Time") [.int 1, .int 2], .str "some_tf_frame_name"]) := by
  obtain ⟨i, e1, l1, u1⟩ := (conforms_intS (d (uint32 0 0)) 0 0).1 h1
  obtain ⟨sv, nv, e2, cs, cn⟩ :=
    (conforms_timeS (d (time (uint32 1 1) (uint32 2 2))) (uint32 1 1) (uint32 2 2)).1 h2
  obtain ⟨s, es, ls, us⟩ := (conforms_intS sv 1 1).1 cs
  obtain ⟨n, en, ln, un⟩ := (conforms_intS nv 2 2).1 cn
  have e3 := (conforms_just_str (d (.just (.str "some_tf_frame_name")))
    "some_tf_frame_name").1 h3
  have hi : i = 0 := by omega
  have hs : s = 1 := by omega
  have hn : n = 2 := by omega
  subst hi hs hn es en
  simp [header, ofStrat, Bind.bind, Except.bind, pure, Except.pure, e1, e2, e3]

/-- Witness for C4: the canonical conforming engine satisfies the three
conformance hypotheses and the customized header draw is the constant record. -/
theorem C4_header_constant_draw_witness :
    header (ofStrat (uint32 0 0)) (ofStrat (time (uint32 1 1) (uint32 2 2)))
        (ofStrat (.just (.str "some_tf_frame_name"))) defaultDraw
      = .ok (.tuple (some "Header")
          [.int 0, .tuple (some "Time") [.int 1, .int 2], .str "some_tf_frame_name"]) :=
  C4_header_constant_draw defaultDraw rfl rfl rfl

/-- Claim C5: every array generator with `min_size == max_size == n` draws a
sequence of length exactly `n` on every conforming draw; in particular the array
generator with `min_size == max_size == 4` whose element generator is fixed to
the constant `0` always draws `[0, 0, 0, 0]`. -/
theorem C5_array_exact_size :
    (∀ (e : Strat) (n : Nat) (d : Draw),
       conforms (d (array e (some n) (some n))) (array e (some n) (some n)) = true →
       ∃ xs, d (array e (some n) (some n)) = .list xs ∧ xs.length = n) ∧
    (∀ d : Draw,
       conforms (d (array (uint8 0 0) (some 4) (some 4)))
           (array (uint8 0 0) (some 4) (some 4)) = true →
       d (array (uint8 0 0) (some 4) (some 4)) = .list [.int 0, .int 0, .int 0, .int 0]) := by
  constructor
  · intro e n d h
    obtain ⟨xs, hxs, hlen, _⟩ := (conforms_arrayOf_exact _ e n).1 h
    exact ⟨xs, hxs, hlen⟩
  · intro d h
    obtain ⟨xs, hxs, hlen, hall⟩ := (conforms_arrayOf_exact _ (uint8 0 0) 4).1 h
    have := all_conforms_const_int xs 0 hall
    rw [hlen] at this
    rw [hxs, this]
    rfl

/-- Witness for C5: the canonical conforming engine draws a 4-element sequence,
namely `[0, 0, 0, 0]`, from the size-4 constant-element array generator. -/
theorem C5_array_exact_size_witness :
    ∃ xs, defaultDraw (array (uint8 0 0) (some 4) (some 4)) = .list xs ∧ xs.length = 4 :=
  C5_array_exact_size.1 (uint8 0 0) 4 defaultDraw rfl

/-- Claim C6: every bounded integer or bounded float field generator constructed
with `min_value == max_value == k` yields exactly `k` on every conforming draw
(shown for `uint8`, `uint32` and `float64`). -/
theorem C6_degenerate_bounds_constant :
    (∀ (k : Int) (d : Draw),
       conforms (d (uint8 k k)) (uint8 k k) = true → d (uint8 k k) = .int k) ∧
    (∀ (k : Int) (d : Draw),
       conforms (d (uint32 k k)) (uint32 k k) = true → d (uint32 k k) = .int k) ∧
    (∀ (k : Rat) (d : Draw),
       conforms (d (float64 (some k) (some k))) (float64 (some k) (some k)) = true →
       d (float64 (some k) (some k)) = .float k) := by
  refine ⟨?_, ?_, ?_⟩
  · intro k d h
    obtain ⟨i, hi, hlo, hhi⟩ := (conforms_intS (d (uint8 k k)) k k).1 h
    have : i = k := by omega
    rw [hi, this]
  · intro k d h
    obtain ⟨i, hi, hlo, hhi⟩ := (conforms_intS (d (uint32 k k)) k k).1 h
    have : i = k := by omega
    rw [hi, this]
  · intro k d h
    obtain ⟨q, hq, hlo, hhi⟩ := (conforms_floatS_closed (d (float64 (some k) (some k))) k k).1 h
    have : q = k := le_antisymm hhi hlo
    rw [hq, this]

/-- Witness for C6: the canonical conforming engine draws exactly `5` from
`uint8(min_value=5, max_value=5)`. -/
theorem C6_degenerate_bounds_constant_witness :
    defaultDraw (uint8 5 5) = .int 5 :=
  C6_degenerate_bounds_constant.1 5 defaultDraw rfl

/-- Claim C7: overriding the nested-record fields of `pose` with generators
whose leaf generators are all fixed to the constant `0.0` makes the produced
value of that subtree identical on every conforming draw: the whole `_Pose`
record is the same fixed value no matter which engine performs the draw. -/
theorem C7_nested_override_deterministic (d : Draw)
    (h : conforms (d (float64 (some 0) (some 0))) (float64 (some 0) (some 0)) = true) :
    pose
        (point (ofStrat (float64 (some 0) (some 0))) (ofStrat (float64 (some 0) (some 0)))
          (ofStrat (float64 (some 0) (some 0))))
        (quaternion (ofStrat (float64 (some 0) (some 0))) (ofStrat (float64 (some 0) (some 0)))
          (ofStrat (float64 (some 0) (some 0))) (ofStrat (float64 (some 0) (some 0)))) d
      = .ok (.tuple (some "Pose")
          [.tuple (some "Point") [.float 0, .float 0, .float 0],
           .tuple (some "Quaternion") [.float 0, .float 0, .float 0, .float 0]]) := by
  obtain ⟨q, hq, hlo, hhi⟩ := (conforms_floatS_closed (d (float64 (some 0) (some 0))) 0 0).1 h
  have : q = 0 := le_antisymm hhi hlo
  subst this
  simp [pose, point, quaternion, ofStrat, hq, pyAssert, RosValue.isFloat,
    RosValue.isinstanceOf, Bind.bind, Except.bind, pure, Except.pure]

/-- Witness for C7: the canonical conforming engine satisfies the conformance
hypothesis and the fully-constant `pose` subtree draws the fixed record. -/
theorem C7_nested_override_deterministic_witness :
    pose
        (point (ofStrat (float64 (some 0) (some 0))) (ofStrat (float64 (some 0) (some 0)))
          (ofStrat (float64 (some 0) (some 0))))
        (quaternion (ofStrat (float64 (some 0) (some 0))) (ofStrat (float64 (some 0) (some 0)))
          (ofStrat (float64 (some 0) (some 0))) (ofStrat (float64 (some 0) (some 0))))
        defaultDraw
      = .ok (.tuple (some "Pose")
          [.tuple (some "Point") [.float 0, .float 0, .float 0],
           .tuple (some "Quaternion") [.float 0, .float 0, .float 0, .float 0]]) :=
  C7_nested_override_deterministic defaultDraw rfl

/-- Claim C8: supplying an override generator for the `x` field of `point`
leaves the generator used for every other field unchanged: under the same
engine, the `y` and `z` components of the record drawn from the overridden
composite equal those drawn from the fully-default composite — both are the
draw of the shared module-level `float64()` default strategy. -/
theorem C8_override_leaves_other_fields (x : Gen) (d : Draw) (v w : RosValue)
    (hov : point x (ofStrat float64Default) (ofStrat float64Default) d = .ok v)
    (hdef : point (ofStrat float64Default) (ofStrat float64Default)
      (ofStrat float64Default) d = .ok w) :
    ∃ xv xv', v = .tuple (some "Point") [xv, d float64Default, d float64Default] ∧
      w = .tuple (some "Point") [xv', d float64Default, d float64Default] := by
  rw [point_ok_iff] at hov hdef
  obtain ⟨xv, hx, yv, hy, zv, hz, _, _, _, hv⟩ := hov
  obtain ⟨xv', hx', yv', hy', zv', hz', _, _, _, hw⟩ := hdef
  rw [ofStrat_ok] at hy hz hy' hz'
  subst hy hz hy' hz'
  exact ⟨xv, xv', hv, hw⟩

/-- Witness for C8: with `x` overridden by the degenerate `float64(1, 1)`
strategy, both the overridden and the fully-default `point` draw succeed under
the canonical engine and agree on `y` and `z`. -/
theorem C8_override_leaves_other_fields_witness :
    ∃ xv xv',
      (RosValue.tuple (some "Point") [.float 1, .float 0, .float 0])
        = .tuple (some "Point") [xv, defaultDraw float64Default, defaultDraw float64Default] ∧
      (RosValue.tuple (some "Point") [.float 0, .float 0, .float 0])
        = .tuple (some "Point") [xv', defaultDraw float64Default, defaultDraw float64Default] :=
  C8_override_leaves_other_fields (ofStrat (float64 (some 1) (some 1))) defaultDraw
    (.tuple (some "Point") [.float 1, .float 0, .float 0])
    (.tuple (some "Point") [.float 0, .float 0, .float 0]) rfl rfl

/-- Claim C9: the default covariance generator of `pose_with_covariance` has its
size bounds fixed to exactly 36, so every conforming default draw yields a
36-element sequence; and no check enforces that count on an override — a size-2
override still succeeds and its record is returned. -/
theorem C9_covariance_size_default_not_enforced :
    (∀ (d : Draw) (v : RosValue),
       conforms (d poseWithCovarianceCovarianceDefault)
           poseWithCovarianceCovarianceDefault = true →
       pose_with_covariance poseDefault (ofStrat poseWithCovarianceCovarianceDefault) d
         = .ok v →
       ∃ pv xs, v = .tuple (some "PoseWithCovariance") [pv, .list xs] ∧ xs.length = 36) ∧
    (pose_with_covariance poseDefault
        (ofStrat (array float64Default (some 2) (some 2))) defaultDraw
      = .ok (.tuple (some "PoseWithCovariance")
          [.tuple (some "Pose")
            [.tuple (some "Point") [.float 0, .float 0, .float 0],
             .tuple (some "Quaternion") [.float 0, .float 0, .float 0, .float 0]],
           .list [.float 0, .float 0]])
     ∧ (2 : Nat) ≠ 36) := by
  refine ⟨?_, rfl, by omega⟩
  intro d v hc h
  rw [pose_with_covariance_ok_iff] at h
  obtain ⟨pv, hp, cv, hcv, rfl⟩ := h
  rw [ofStrat_ok] at hcv
  obtain ⟨xs, hxs, hlen, _⟩ :=
    (conforms_arrayOf_exact (d poseWithCovarianceCovarianceDefault) float64Default 36).1 hc
  rw [hxs] at hcv
  exact ⟨pv, xs, by rw [← hcv], hlen⟩

/-- Witness for C9: under the canonical conforming engine the fully-default
`pose_with_covariance` draw returns a record whose covariance has exactly 36
elements. -/
theorem C9_covariance_size_default_not_enforced_witness :
    ∃ pv xs,
      (RosValue.tuple (some "PoseWithCovariance")
        [.tuple (some "Pose")
          [.tuple (some "Point") [.float 0, .float 0, .float 0],
           .tuple (some "Quaternion") [.float 0, .float 0, .float 0, .float 0]],
         .list (List.replicate 36 (.float 0))])
        = .tuple (some "PoseWithCovariance") [pv, .list xs] ∧ xs.length = 36 :=
  C9_covariance_size_default_not_enforced.1 defaultDraw
    (.tuple (some "PoseWithCovariance")
      [.tuple (some "Pose")
        [.tuple (some "Point") [.float 0, .float 0, .float 0],
         .tuple (some "Quaternion") [.float 0, .float 0, .float 0, .float 0]],
       .list (List.replicate 36 (.float 0))])
    (by decide) rfl
